import Mathlib

/-!
Verification of `cms/utils/page_permissions.py` (django-cms page permission
resolution).

The module is embedded shallowly: the external collaborators (Django auth
principal, settings, the permission cache, the global-grant check, the
tree-aggregation collaborator `get_page_actions_for_user`, the page and
placeholder stores) are modelled as explicit data carried in an `Env`
record, and each Python function becomes a Lean function over that record.
Python `KeyError` propagation is modelled with `Except String`.
The per-call memoization decorator `cached_func` only caches results and
never changes them, so it is embedded as the identity.
-/

namespace PagePermissions

/-- A Django auth principal, reduced to the fields the module reads:
the three boolean capability flags and the set of coarse permission
codes backing `has_perm`/`has_perms`. -/
structure User where
  is_superuser : Bool
  is_staff : Bool
  is_authenticated : Bool
  perms : List String
deriving DecidableEq, Repr

/-- `user.has_perms(codes)`: the principal holds every code in the list. -/
def User.has_perms (user : User) (codes : List String) : Bool :=
  codes.all (fun c => user.perms.contains c)

/-- `user.has_perm(code)`: the principal holds the single code. -/
def User.has_perm (user : User) (code : String) : Bool :=
  user.perms.contains code

/-- A placeholder (content unit): its pk and the languages of the
CMSPlugins it contains (backing the `cmsplugin__language__in` filter). -/
structure Placeholder where
  pk : Nat
  plugin_languages : List String
deriving DecidableEq, Repr

/-- A page, reduced to the fields the module reads.  `site` is the site
pk, `has_view_restrictions` the result of the page method of that name,
`languages` the result of `get_languages()`. -/
structure Page where
  pk : Nat
  publisher_is_draft : Bool
  publisher_public_id : Nat
  site : Nat
  has_view_restrictions : Bool
  languages : List String
deriving DecidableEq, Repr

/-- A grant set: either the `GRANT_ALL_PERMISSIONS` sentinel ("All") or an
explicit list of page ids, exactly the two shapes
`_get_page_ids_for_action` can return. -/
inductive GrantSet where
  | all : GrantSet
  | ids : List Nat → GrantSet
deriving DecidableEq, Repr

/-- The sentinel from `cms.constants`. -/
def GRANT_ALL_PERMISSIONS : GrantSet := GrantSet.all

/-- The external collaborators of the module, as read-only data:
settings, current site, the permission cache content, the global-grant
check, the tree-aggregation collaborator, the page store (pk to page, used
by `get_page_draft`), the placeholder store (page pk to its placeholders)
and the placeholder-level plugin-deletion check. -/
structure Env where
  permission : Bool
  public_for : String
  current_site : Nat
  permission_cache : User → String → Option (List Nat)
  has_global_permission : User → Nat → String → Bool
  page_actions_for_user : User → Nat → String → List Nat
  pages : Nat → Page
  placeholders : Nat → List Placeholder
  has_delete_plugins_permission : User → Placeholder → List String → Bool

/-- `get_model_permission_codename(Page, 'add')`. -/
def PAGE_ADD_CODENAME : String := "cms.add_page"

/-- `get_model_permission_codename(Page, 'change')`. -/
def PAGE_CHANGE_CODENAME : String := "cms.change_page"

/-- `get_model_permission_codename(Page, 'delete')`. -/
def PAGE_DELETE_CODENAME : String := "cms.delete_page"

/-- `get_model_permission_codename(Page, 'publish')`. -/
def PAGE_PUBLISH_CODENAME : String := "cms.publish_page"

/-- `get_model_permission_codename(Page, 'view')`. -/
def PAGE_VIEW_CODENAME : String := "cms.view_page"

/-- The dict `_django_permissions_by_action`: maps an action to the
required Django auth permission codes. -/
def _django_permissions_by_action : List (String × List String) :=
  [("add_page", [PAGE_ADD_CODENAME, PAGE_CHANGE_CODENAME]),
   ("change_page", [PAGE_CHANGE_CODENAME]),
   ("change_page_advanced_settings", [PAGE_CHANGE_CODENAME]),
   ("change_page_permissions", [PAGE_CHANGE_CODENAME]),
   ("delete_page", [PAGE_CHANGE_CODENAME, PAGE_DELETE_CODENAME]),
   ("delete_page_translation", [PAGE_CHANGE_CODENAME, PAGE_DELETE_CODENAME]),
   ("move_page", [PAGE_CHANGE_CODENAME]),
   ("publish_page", [PAGE_CHANGE_CODENAME, PAGE_PUBLISH_CODENAME]),
   ("recover_page", [PAGE_ADD_CODENAME, PAGE_CHANGE_CODENAME])]

/-- Modelled from the spec: `get_page_draft` (from `cms.api`, not part of
this module) resolves a resource to its draft materialization - "a draft
resource and an optional published counterpart share one logical identity;
permission identity always resolves to the draft".  A draft is returned
unchanged; a published page is resolved through its `publisher_public_id`
in the page store. -/
def get_page_draft (env : Env) (page : Page) : Page :=
  if page.publisher_is_draft then page else env.pages page.publisher_public_id

/-- `_get_draft_placeholders(page)`: the placeholders of the page itself
when it is a draft, otherwise those of the page whose pk is the published
page's `publisher_public_id`. -/
def _get_draft_placeholders (env : Env) (page : Page) : List Placeholder :=
  if page.publisher_is_draft then env.placeholders page.pk
  else env.placeholders page.publisher_public_id

/-- `_get_page_ids_for_action(user, site, action, check_global=True)`. -/
def _get_page_ids_for_action (env : Env) (user : User) (site : Nat)
    (action : String) (check_global : Bool) : GrantSet :=
  if user.is_superuser || !env.permission then
    GRANT_ALL_PERMISSIONS
  else
    match env.permission_cache user action with
    | some cached => GrantSet.ids cached
    | none =>
      if check_global && env.has_global_permission user site action then
        GRANT_ALL_PERMISSIONS
      else
        GrantSet.ids (env.page_actions_for_user user site action)

/-- The observable interactions of one `_get_page_ids_for_action` call with
its collaborators: whether the cache was read, what (if anything) was
written to it, whether `has_global_permission` was invoked, and whether the
tree-aggregation collaborator `get_page_actions_for_user` was invoked. -/
structure ResolveTrace where
  grant : GrantSet
  cache_read : Bool
  cache_write : Option (String × List Nat)
  global_checked : Bool
  tree_called : Bool
deriving DecidableEq, Repr

/-- `_get_page_ids_for_action` instrumented with the trace of its
collaborator interactions (same branch structure as the plain version). -/
def _get_page_ids_for_action_traced (env : Env) (user : User) (site : Nat)
    (action : String) (check_global : Bool) : ResolveTrace :=
  if user.is_superuser || !env.permission then
    ⟨GRANT_ALL_PERMISSIONS, false, none, false, false⟩
  else
    match env.permission_cache user action with
    | some cached => ⟨GrantSet.ids cached, true, none, false, false⟩
    | none =>
      if check_global && env.has_global_permission user site action then
        ⟨GRANT_ALL_PERMISSIONS, true, none, true, false⟩
      else
        let page_ids := env.page_actions_for_user user site action
        ⟨GrantSet.ids page_ids, true, some (action, page_ids),
          check_global, true⟩

/-- `get_add_id_list(user, site, check_global=True)`. -/
def get_add_id_list (env : Env) (user : User) (site : Nat)
    (check_global : Bool) : GrantSet :=
  _get_page_ids_for_action env user site "add_page" check_global

/-- `get_change_id_list(user, site, check_global=True)`. -/
def get_change_id_list (env : Env) (user : User) (site : Nat)
    (check_global : Bool) : GrantSet :=
  _get_page_ids_for_action env user site "change_page" check_global

/-- `get_change_advanced_settings_id_list(user, site, check_global=True)`. -/
def get_change_advanced_settings_id_list (env : Env) (user : User) (site : Nat)
    (check_global : Bool) : GrantSet :=
  _get_page_ids_for_action env user site "change_page_advanced_settings" check_global

/-- `get_change_permissions_id_list(user, site, check_global=True)`. -/
def get_change_permissions_id_list (env : Env) (user : User) (site : Nat)
    (check_global : Bool) : GrantSet :=
  _get_page_ids_for_action env user site "change_page_permissions" check_global

/-- `get_delete_id_list(user, site, check_global=True)`. -/
def get_delete_id_list (env : Env) (user : User) (site : Nat)
    (check_global : Bool) : GrantSet :=
  _get_page_ids_for_action env user site "delete_page" check_global

/-- `get_move_page_id_list(user, site, check_global=True)`. -/
def get_move_page_id_list (env : Env) (user : User) (site : Nat)
    (check_global : Bool) : GrantSet :=
  _get_page_ids_for_action env user site "move_page" check_global

/-- `get_publish_id_list(user, site, check_global=True)`. -/
def get_publish_id_list (env : Env) (user : User) (site : Nat)
    (check_global : Bool) : GrantSet :=
  _get_page_ids_for_action env user site "publish_page" check_global

/-- `get_view_id_list(user, site, check_global=True)`. -/
def get_view_id_list (env : Env) (user : User) (site : Nat)
    (check_global : Bool) : GrantSet :=
  _get_page_ids_for_action env user site "view_page" check_global

/-- The `actions_map` dict of `has_generic_permission`: maps an action name
to its id-list getter (note `delete_page_translation` maps to
`get_delete_id_list`); an absent key is a `KeyError`. -/
def actions_map (action : String) :
    Option (Env → User → Nat → Bool → GrantSet) :=
  match action with
  | "add_page" => some get_add_id_list
  | "change_page" => some get_change_id_list
  | "change_page_advanced_settings" => some get_change_advanced_settings_id_list
  | "change_page_permissions" => some get_change_permissions_id_list
  | "delete_page" => some get_delete_id_list
  | "delete_page_translation" => some get_delete_id_list
  | "move_page" => some get_move_page_id_list
  | "publish_page" => some get_publish_id_list
  | "view_page" => some get_view_id_list
  | _ => none

/-- `page_id in page_ids` on the list shape of a grant set (unreachable on
the sentinel, where the `or` in the caller has already short-circuited). -/
def GrantSet.member (g : GrantSet) (page_id : Nat) : Bool :=
  match g with
  | GrantSet.all => false
  | GrantSet.ids l => l.contains page_id

/-- `has_generic_permission(page, user, action, site=None, check_global=True)`:
resolve the site default, resolve the page's permission identity (own pk
for a draft, else `publisher_public_id`), dispatch through `actions_map`
(`KeyError` on an unknown action), and test
`page_ids == GRANT_ALL_PERMISSIONS or page_id in page_ids`. -/
def has_generic_permission (env : Env) (page : Page) (user : User)
    (action : String) (site : Option Nat) (check_global : Bool) :
    Except String Bool :=
  let s := match site with
    | none => page.site
    | some s => s
  let page_id := if page.publisher_is_draft then page.pk
    else page.publisher_public_id
  match actions_map action with
  | none => Except.error "KeyError"
  | some func =>
    let page_ids := func env user s check_global
    Except.ok (page_ids == GRANT_ALL_PERMISSIONS || page_ids.member page_id)

/-- The `permission_pre_checks(action)` decorator: deny unauthenticated
principals, allow superusers, deny on missing Django permission codes
(`KeyError` on an action absent from `_django_permissions_by_action`),
allow when the permission subsystem is disabled, else run the wrapped
body. -/
def permission_pre_checks (action : String) (env : Env) (user : User)
    (func : Except String Bool) : Except String Bool :=
  if !user.is_authenticated then Except.ok false
  else if user.is_superuser then Except.ok true
  else
    match _django_permissions_by_action.lookup action with
    | none => Except.error "KeyError"
    | some required =>
      if !(user.has_perms required) then Except.ok false
      else if !env.permission then Except.ok true
      else func

/-- `user_can_add_page(user, site=None)`. -/
def user_can_add_page (env : Env) (user : User) (site : Option Nat) :
    Except String Bool :=
  permission_pre_checks "add_page" env user
    (let s := match site with
      | none => env.current_site
      | some s => s
     Except.ok (env.has_global_permission user s "add_page"))

/-- `user_can_add_subpage(user, target, site=None)`. -/
def user_can_add_subpage (env : Env) (user : User) (target : Page)
    (site : Option Nat) : Except String Bool :=
  permission_pre_checks "add_page" env user
    (has_generic_permission env target user "add_page" site true)

/-- `user_can_change_page(user, page)`. -/
def user_can_change_page (env : Env) (user : User) (page : Page) :
    Except String Bool :=
  permission_pre_checks "change_page" env user
    (has_generic_permission env page user "change_page" none true)

/-- The body of `user_can_delete_page` after its base grant: the draft
placeholders holding a plugin in one of the page's languages, each of
which must pass `has_delete_plugins_permission(user, languages)`. -/
def delete_page_placeholders (env : Env) (page : Page) : List Placeholder :=
  (_get_draft_placeholders env page).filter
    (fun ph => ph.plugin_languages.any (fun l => page.languages.contains l))

/-- `user_can_delete_page(user, page)`. -/
def user_can_delete_page (env : Env) (user : User) (page : Page) :
    Except String Bool :=
  permission_pre_checks "delete_page" env user
    (match has_generic_permission env page user "delete_page" none true with
     | Except.error e => Except.error e
     | Except.ok has_perm =>
       if !has_perm then Except.ok false
       else
         Except.ok ((delete_page_placeholders env page).all
           (fun ph => env.has_delete_plugins_permission user ph page.languages)))

/-- `user_can_delete_page_translation(user, page, language)`. -/
def user_can_delete_page_translation (env : Env) (user : User) (page : Page)
    (language : String) : Except String Bool :=
  permission_pre_checks "delete_page_translation" env user
    (match has_generic_permission env page user "delete_page_translation" none true with
     | Except.error e => Except.error e
     | Except.ok has_perm =>
       if !has_perm then Except.ok false
       else
         Except.ok (((_get_draft_placeholders env page).filter
             (fun ph => ph.plugin_languages.contains language)).all
           (fun ph => env.has_delete_plugins_permission user ph [language])))

/-- `user_can_publish_page(user, page)`. -/
def user_can_publish_page (env : Env) (user : User) (page : Page) :
    Except String Bool :=
  permission_pre_checks "publish_page" env user
    (has_generic_permission env page user "publish_page" none true)

/-- `user_can_change_page_advanced_settings(user, page)`. -/
def user_can_change_page_advanced_settings (env : Env) (user : User)
    (page : Page) : Except String Bool :=
  permission_pre_checks "change_page_advanced_settings" env user
    (has_generic_permission env page user "change_page_advanced_settings" none true)

/-- `user_can_change_page_permissions(user, page)`. -/
def user_can_change_page_permissions (env : Env) (user : User) (page : Page) :
    Except String Bool :=
  permission_pre_checks "change_page_permissions" env user
    (has_generic_permission env page user "change_page_permissions" none true)

/-- `user_can_move_page(user, page)`. -/
def user_can_move_page (env : Env) (user : User) (page : Page) :
    Except String Bool :=
  permission_pre_checks "move_page" env user
    (has_generic_permission env page user "move_page" none true)

/-- `user_can_change_all_pages(user, site)`. -/
def user_can_change_all_pages (env : Env) (user : User) (site : Nat) :
    Except String Bool :=
  permission_pre_checks "change_page" env user
    (Except.ok (env.has_global_permission user site "change_page"))

/-- `user_can_recover_any_page(user, site)`. -/
def user_can_recover_any_page (env : Env) (user : User) (site : Nat) :
    Except String Bool :=
  permission_pre_checks "recover_page" env user
    (Except.ok (env.has_global_permission user site "recover_page"))

/-- `user_can_view_all_pages(user, site)` (no pre-check decorator). -/
def user_can_view_all_pages (env : Env) (user : User) (site : Nat) : Bool :=
  if user.is_superuser then true
  else if !env.permission then
    env.public_for == "all" || (env.public_for == "staff" && user.is_staff)
  else if !user.is_authenticated then false
  else if user.has_perm PAGE_VIEW_CODENAME then true
  else env.has_global_permission user site "view_page"

/-- `user_can_view_page(user, page)` (no pre-check decorator). -/
def user_can_view_page (env : Env) (user : User) (page : Page) :
    Except String Bool :=
  if user.is_superuser then Except.ok true
  else
    let public_for := env.public_for
    let can_see_unrestricted := public_for == "all" ||
      (public_for == "staff" && user.is_staff)
    let pageD := get_page_draft env page
    let is_restricted := pageD.has_view_restrictions
    if !is_restricted && can_see_unrestricted then Except.ok true
    else if !user.is_authenticated then Except.ok false
    else if user_can_view_all_pages env user pageD.site then Except.ok true
    else if !is_restricted then Except.ok false
    else has_generic_permission env pageD user "view_page" none false

/-! ### Concrete fixtures for witnesses and counterexamples -/

/-- An authenticated, non-superuser, non-staff principal holding every
page permission codename. -/
def fullPermsUser : User :=
  ⟨false, false, true, [PAGE_ADD_CODENAME, PAGE_CHANGE_CODENAME,
    PAGE_DELETE_CODENAME, PAGE_PUBLISH_CODENAME, PAGE_VIEW_CODENAME]⟩

/-- An anonymous (unauthenticated) principal. -/
def anonUser : User := ⟨false, false, false, []⟩

/-- A superuser principal. -/
def superUser : User := ⟨true, true, true, []⟩

/-- A draft page with pk 20 on site 1, unrestricted, language en. -/
def draftPage : Page := ⟨20, true, 0, 1, false, ["en"]⟩

/-- The published counterpart of `draftPage` (its `publisher_public_id`
points at the draft's pk). -/
def publishedPage : Page := ⟨10, false, 20, 1, false, ["en"]⟩

/-- A placeholder holding a plugin in language en. -/
def enPlaceholder : Placeholder := ⟨7, ["en"]⟩

/-- A baseline environment: subsystem enabled, public visibility for all,
empty cache, no global grants, tree aggregation granting page 20, page
store resolving every pk to `draftPage`, a single placeholder with an en
plugin everywhere, and plugin deletion always allowed. -/
def baseEnv : Env :=
  ⟨true, "all", 1,
   fun _ _ => none,
   fun _ _ _ => false,
   fun _ _ _ => [20],
   fun _ => draftPage,
   fun _ => [enPlaceholder],
   fun _ _ _ => true⟩

/-- The `can_see_unrestricted` policy expression computed by
`user_can_view_page` and `user_can_view_all_pages`. -/
def can_see_unrestricted (env : Env) (user : User) : Bool :=
  env.public_for == "all" || (env.public_for == "staff" && user.is_staff)

/-! ### Claims -/

/-- C1: for every page, user, action in the dispatch table, site and
check_global flag, `has_generic_permission` returns true if and only if
the grant set produced by the action's id-list getter is the ALL sentinel
or contains the page's resolved permission identity (the page's own pk
when it is a draft, otherwise its `publisher_public_id`). -/
theorem has_generic_permission_iff_grant (env : Env) (page : Page)
    (user : User) (action : String) (site : Option Nat) (check_global : Bool)
    (func : Env → User → Nat → Bool → GrantSet)
    (hfunc : actions_map action = some func) :
    has_generic_permission env page user action site check_global =
        Except.ok true ↔
      (func env user (site.getD page.site) check_global = GrantSet.all ∨
        ∃ l, func env user (site.getD page.site) check_global =
            GrantSet.ids l ∧
          (if page.publisher_is_draft then page.pk
            else page.publisher_public_id) ∈ l) := by
  cases site with
  | none =>
    simp only [has_generic_permission, hfunc, Option.getD]
    cases hg : func env user page.site check_global with
    | all => simp [GRANT_ALL_PERMISSIONS, GrantSet.member, hg]
    | ids l => simp [GRANT_ALL_PERMISSIONS, GrantSet.member, hg]
  | some s =>
    simp only [has_generic_permission, hfunc, Option.getD]
    cases hg : func env user s check_global with
    | all => simp [GRANT_ALL_PERMISSIONS, GrantSet.member, hg]
    | ids l => simp [GRANT_ALL_PERMISSIONS, GrantSet.member, hg]

/-- Witness for C1: concrete evaluation on `baseEnv`, page 20, action
view_page, whose getter is `get_view_id_list`. -/
theorem has_generic_permission_iff_grant_witness :
    has_generic_permission baseEnv draftPage fullPermsUser "view_page"
        none true = Except.ok true ↔
      (get_view_id_list baseEnv fullPermsUser 1 true = GrantSet.all ∨
        ∃ l, get_view_id_list baseEnv fullPermsUser 1 true =
            GrantSet.ids l ∧ 20 ∈ l) :=
  has_generic_permission_iff_grant baseEnv draftPage fullPermsUser
    "view_page" none true get_view_id_list rfl

/-- C2: `user_can_view_page` decides by the first matching outcome, in
order: superuser allow; unrestricted draft-resolved page plus permissive
public policy allow; unauthenticated deny; site-wide view-all allow;
unrestricted deny; otherwise fine-grained view resolution on the
draft-resolved page with `check_global = false` — and with that flag the
resolver never consults the global-grant collaborator. -/
theorem user_can_view_page_order (env : Env) (user : User) (page : Page) :
    (user.is_superuser = true →
      user_can_view_page env user page = Except.ok true) ∧
    (user.is_superuser = false →
      (get_page_draft env page).has_view_restrictions = false →
      can_see_unrestricted env user = true →
      user_can_view_page env user page = Except.ok true) ∧
    (user.is_superuser = false →
      ((get_page_draft env page).has_view_restrictions = true ∨
        can_see_unrestricted env user = false) →
      user.is_authenticated = false →
      user_can_view_page env user page = Except.ok false) ∧
    (user.is_superuser = false →
      ((get_page_draft env page).has_view_restrictions = true ∨
        can_see_unrestricted env user = false) →
      user.is_authenticated = true →
      user_can_view_all_pages env user (get_page_draft env page).site = true →
      user_can_view_page env user page = Except.ok true) ∧
    (user.is_superuser = false →
      can_see_unrestricted env user = false →
      user.is_authenticated = true →
      user_can_view_all_pages env user (get_page_draft env page).site = false →
      (get_page_draft env page).has_view_restrictions = false →
      user_can_view_page env user page = Except.ok false) ∧
    (user.is_superuser = false →
      user.is_authenticated = true →
      user_can_view_all_pages env user (get_page_draft env page).site = false →
      (get_page_draft env page).has_view_restrictions = true →
      user_can_view_page env user page =
        has_generic_permission env (get_page_draft env page) user
          "view_page" none false) ∧
    (∀ site action,
      (_get_page_ids_for_action_traced env user site action
        false).global_checked = false) := by
  refine ⟨?_, ?_, ?_, ?_, ?_, ?_, ?_⟩
  · intro h1
    simp [user_can_view_page, h1]
  · intro h1 h2 h3
    simp only [can_see_unrestricted] at h3
    simp [user_can_view_page, h1, h2, h3]
  · intro h1 h2 h3
    rcases h2 with h2 | h2
    · simp [user_can_view_page, h1, h2, h3]
    · simp only [can_see_unrestricted] at h2
      simp [user_can_view_page, h1, h2, h3]
  · intro h1 h2 h3 h4
    rcases h2 with h2 | h2
    · simp [user_can_view_page, h1, h2, h3, h4]
    · simp only [can_see_unrestricted] at h2
      simp [user_can_view_page, h1, h2, h3, h4]
  · intro h1 h2 h3 h4 h5
    simp only [can_see_unrestricted] at h2
    simp [user_can_view_page, h1, h2, h3, h4, h5]
  · intro h1 h2 h3 h4
    simp [user_can_view_page, h1, h2, h3, h4]
  · intro site action
    unfold _get_page_ids_for_action_traced
    split
    · rfl
    · split
      · rfl
      · simp

/-- Witness for C2: the anonymous principal may view the unrestricted
page under the public-for-all policy (outcome 2 at a concrete input). -/
theorem user_can_view_page_order_witness :
    user_can_view_page baseEnv anonUser draftPage = Except.ok true :=
  (user_can_view_page_order baseEnv anonUser draftPage).2.1 (by decide)
    (by decide) (by decide)

/-- Helper: on an action present in the dispatch table,
`has_generic_permission` is `Except.ok` of the membership test of the
resolved identity in the getter's grant set. -/
theorem has_generic_permission_eq_ok (env : Env) (page : Page) (user : User)
    (action : String) (site : Option Nat) (check_global : Bool)
    (func : Env → User → Nat → Bool → GrantSet)
    (hfunc : actions_map action = some func) :
    has_generic_permission env page user action site check_global =
      Except.ok
        ((func env user (site.getD page.site) check_global ==
            GRANT_ALL_PERMISSIONS) ||
          (func env user (site.getD page.site) check_global).member
            (if page.publisher_is_draft then page.pk
              else page.publisher_public_id)) := by
  cases site <;> simp only [has_generic_permission, hfunc, Option.getD]

/-- C3: `_get_page_ids_for_action` follows exactly the documented order:
superuser or disabled subsystem returns ALL with no cache read or write;
a cache hit is returned verbatim without invoking the global-grant check
or the tree-aggregation collaborator; a global grant under `check_global`
returns ALL without writing the cache; otherwise the tree-aggregation
result is computed, written to the cache and returned.  The traced
resolver projects to the plain one. -/
theorem get_page_ids_for_action_order (env : Env) (user : User) (site : Nat)
    (action : String) (check_global : Bool) :
    ((_get_page_ids_for_action_traced env user site action
        check_global).grant =
      _get_page_ids_for_action env user site action check_global) ∧
    ((user.is_superuser = true ∨ env.permission = false) →
      _get_page_ids_for_action_traced env user site action check_global =
        ⟨GRANT_ALL_PERMISSIONS, false, none, false, false⟩) ∧
    (user.is_superuser = false → env.permission = true →
      ∀ l, env.permission_cache user action = some l →
        _get_page_ids_for_action_traced env user site action check_global =
          ⟨GrantSet.ids l, true, none, false, false⟩) ∧
    (user.is_superuser = false → env.permission = true →
      env.permission_cache user action = none →
      check_global = true →
      env.has_global_permission user site action = true →
      _get_page_ids_for_action_traced env user site action check_global =
        ⟨GRANT_ALL_PERMISSIONS, true, none, true, false⟩) ∧
    (user.is_superuser = false → env.permission = true →
      env.permission_cache user action = none →
      (check_global && env.has_global_permission user site action) = false →
      _get_page_ids_for_action_traced env user site action check_global =
        ⟨GrantSet.ids (env.page_actions_for_user user site action), true,
          some (action, env.page_actions_for_user user site action),
          check_global, true⟩) := by
  refine ⟨?_, ?_, ?_, ?_, ?_⟩
  · unfold _get_page_ids_for_action_traced _get_page_ids_for_action
    split
    · rfl
    · split
      · rfl
      · split
        · rfl
        · rfl
  · intro h
    rcases h with h | h <;> simp [_get_page_ids_for_action_traced, h]
  · intro h1 h2 l hl
    simp [_get_page_ids_for_action_traced, h1, h2, hl]
  · intro h1 h2 h3 h4 h5
    simp [_get_page_ids_for_action_traced, h1, h2, h3, h4, h5]
  · intro h1 h2 h3 h4
    simp only [_get_page_ids_for_action_traced, h1, h2, h3, h4,
      Bool.not_true, Bool.or_false, if_false]
    simp [h4]

/-- Witness for C3: on `baseEnv` (no cache entry, no global grant) the
resolver computes the tree aggregation result `[20]` and writes it to the
cache. -/
theorem get_page_ids_for_action_order_witness :
    _get_page_ids_for_action_traced baseEnv fullPermsUser 1 "change_page"
        true =
      ⟨GrantSet.ids [20], true, some ("change_page", [20]), true, true⟩ :=
  (get_page_ids_for_action_order baseEnv fullPermsUser 1 "change_page"
    true).2.2.2.2 rfl rfl rfl rfl

/-- `baseEnv` with a global grant for every action and plugin deletion
denied everywhere. -/
def noPluginDeleteEnv : Env :=
  ⟨true, "all", 1,
   fun _ _ => none,
   fun _ _ _ => true,
   fun _ _ _ => [],
   fun _ => draftPage,
   fun _ => [enPlaceholder],
   fun _ _ _ => false⟩

/-- Counterexample for C4: a superuser is allowed to delete `draftPage`
although its draft placeholder `enPlaceholder` holds an en plugin and
fails the plugin-deletion check — the claim's per-placeholder condition
does not bind every user, because the pre-check allows superusers (and
the disabled-subsystem case) before the placeholder rule runs. -/
theorem user_can_delete_page_cex :
    user_can_delete_page noPluginDeleteEnv superUser draftPage =
        Except.ok true ∧
      enPlaceholder ∈ delete_page_placeholders noPluginDeleteEnv draftPage ∧
      noPluginDeleteEnv.has_delete_plugins_permission superUser enPlaceholder
        draftPage.languages = false := by
  refine ⟨rfl, ?_, rfl⟩
  decide

/-- C4 amended: for an authenticated non-superuser principal with the
permission subsystem enabled, `user_can_delete_page` returns true only if
the base delete grant passes and every draft placeholder holding a plugin
in one of the page's languages passes the plugin-deletion check over all
of the page's languages; and whenever the principal holds the coarse
delete codes and one such placeholder fails, it returns false. -/
theorem user_can_delete_page_placeholder_rule (env : Env) (user : User)
    (page : Page) (hauth : user.is_authenticated = true)
    (hsup : user.is_superuser = false) (hperm : env.permission = true) :
    (user_can_delete_page env user page = Except.ok true →
      has_generic_permission env page user "delete_page" none true =
          Except.ok true ∧
        ∀ ph ∈ delete_page_placeholders env page,
          env.has_delete_plugins_permission user ph page.languages = true) ∧
    (user.has_perms [PAGE_CHANGE_CODENAME, PAGE_DELETE_CODENAME] = true →
      (∃ ph ∈ delete_page_placeholders env page,
        env.has_delete_plugins_permission user ph page.languages = false) →
      user_can_delete_page env user page = Except.ok false) := by
  have hmap : actions_map "delete_page" = some get_delete_id_list := rfl
  have hlook : _django_permissions_by_action.lookup "delete_page" =
      some [PAGE_CHANGE_CODENAME, PAGE_DELETE_CODENAME] := by decide
  obtain ⟨b, hb⟩ : ∃ b, has_generic_permission env page user "delete_page"
      none true = Except.ok b :=
    ⟨_, has_generic_permission_eq_ok env page user "delete_page" none true
      get_delete_id_list hmap⟩
  constructor
  · intro hres
    by_cases hp : user.has_perms [PAGE_CHANGE_CODENAME, PAGE_DELETE_CODENAME]
        = true
    · simp only [user_can_delete_page, permission_pre_checks, hauth, hsup,
        hperm, hlook, hp, hb, Bool.not_true, Bool.not_false, if_true,
        if_false, ite_true, ite_false] at hres
      cases b with
      | false => simp at hres
      | true =>
        simp only [Bool.not_true, if_false, ite_false] at hres
        refine ⟨hb, ?_⟩
        intro ph hmem
        have hall : (delete_page_placeholders env page).all
            (fun ph => env.has_delete_plugins_permission user ph
              page.languages) = true := by
          simpa using hres
        exact (List.all_eq_true.mp hall) ph hmem
    · rw [Bool.not_eq_true] at hp
      simp only [user_can_delete_page, permission_pre_checks, hauth, hsup,
        hperm, hlook, hp, Bool.not_true, Bool.not_false, if_true, if_false,
        ite_true, ite_false] at hres
      cases hres
  · intro hp hfail
    obtain ⟨ph, hmem, hplug⟩ := hfail
    simp only [user_can_delete_page, permission_pre_checks, hauth, hsup,
      hperm, hlook, hp, hb, Bool.not_true, Bool.not_false, if_true, if_false,
      ite_true, ite_false]
    cases b with
    | false => simp
    | true =>
      simp only [Bool.not_true, if_false, ite_false]
      have hall : (delete_page_placeholders env page).all
          (fun ph => env.has_delete_plugins_permission user ph
            page.languages) = false := by
        rw [List.all_eq_false]
        exact ⟨ph, hmem, by simp [hplug]⟩
      simp [hall]

/-- Witness for C4 amended: the full-codes principal is denied deletion of
`draftPage` in `noPluginDeleteEnv` (global delete grant, but the en
placeholder fails the plugin-deletion check). -/
theorem user_can_delete_page_placeholder_rule_witness :
    user_can_delete_page noPluginDeleteEnv fullPermsUser draftPage =
      Except.ok false :=
  (user_can_delete_page_placeholder_rule noPluginDeleteEnv fullPermsUser
      draftPage rfl rfl rfl).2 (by decide)
    ⟨enPlaceholder, by decide, rfl⟩

/-- Subsystem disabled, staff-only public visibility, no grants. -/
def disabledStaffEnv : Env :=
  ⟨false, "staff", 1,
   fun _ _ => none,
   fun _ _ _ => false,
   fun _ _ _ => [],
   fun _ => draftPage,
   fun _ => [enPlaceholder],
   fun _ _ _ => true⟩

/-- Counterexample for C5: with the subsystem disabled, the authenticated
non-staff principal holding every permission code is still denied by
`user_can_view_all_pages` (a decision function among the claim's cited
sources), because that function falls back to the public-visibility policy
rather than allowing unconditionally. -/
theorem disabled_subsystem_allows_cex :
    disabledStaffEnv.permission = false ∧
      fullPermsUser.is_authenticated = true ∧
      fullPermsUser.is_superuser = false ∧
      user_can_view_all_pages disabledStaffEnv fullPermsUser 1 = false := by
  decide

/-- C5 amended: for every action in the coarse-capability table, when the
permission subsystem is disabled and the authenticated principal holds the
action's codes, the pre-check wrapped decision returns true for every
body — hence regardless of fine-grained grants, restrictions or the
resource supplied.  (The undecorated view functions instead follow the
public-visibility policy.) -/
theorem pre_checks_disabled_allows (action : String) (codes : List String)
    (env : Env) (user : User) (func : Except String Bool)
    (hlook : _django_permissions_by_action.lookup action = some codes)
    (hauth : user.is_authenticated = true)
    (hcodes : user.has_perms codes = true)
    (hdis : env.permission = false) :
    permission_pre_checks action env user func = Except.ok true := by
  by_cases hsup : user.is_superuser = true
  · simp [permission_pre_checks, hauth, hsup]
  · rw [Bool.not_eq_true] at hsup
    simp [permission_pre_checks, hauth, hsup, hlook, hcodes, hdis]

/-- Witness for C5 amended: disabled subsystem, principal with all codes,
and a body that would deny — the wrapper still allows. -/
theorem pre_checks_disabled_allows_witness :
    permission_pre_checks "change_page" disabledStaffEnv fullPermsUser
      (Except.ok false) = Except.ok true :=
  pre_checks_disabled_allows "change_page" [PAGE_CHANGE_CODENAME]
    disabledStaffEnv fullPermsUser (Except.ok false) (by decide) rfl
    (by decide) rfl

/-- Counterexample for C6: the anonymous principal is allowed
(`Except.ok true`) by `user_can_view_page` on the unrestricted page under
the public-for-all policy, so not every public decision function denies
unauthenticated principals. -/
theorem unauthenticated_denied_cex :
    anonUser.is_authenticated = false ∧
      user_can_view_page baseEnv anonUser draftPage = Except.ok true :=
  ⟨rfl, rfl⟩

/-- C6 amended: every pre-check wrapped decision function denies an
unauthenticated principal, for every action and body;
`user_can_view_page` denies an unauthenticated non-superuser principal
unless the draft-resolved page is unrestricted and the public policy
permits; `user_can_view_all_pages` denies an unauthenticated
non-superuser principal whenever the subsystem is enabled. -/
theorem unauthenticated_denied :
    (∀ (action : String) (env : Env) (user : User) (func : Except String Bool),
      user.is_authenticated = false →
      permission_pre_checks action env user func = Except.ok false) ∧
    (∀ (env : Env) (user : User) (page : Page),
      user.is_authenticated = false → user.is_superuser = false →
      ((get_page_draft env page).has_view_restrictions = true ∨
        can_see_unrestricted env user = false) →
      user_can_view_page env user page = Except.ok false) ∧
    (∀ (env : Env) (user : User) (site : Nat),
      user.is_authenticated = false → user.is_superuser = false →
      env.permission = true →
      user_can_view_all_pages env user site = false) := by
  refine ⟨?_, ?_, ?_⟩
  · intro action env user func h
    simp [permission_pre_checks, h]
  · intro env user page h1 h2 h3
    rcases h3 with h3 | h3
    · simp [user_can_view_page, h1, h2, h3]
    · simp only [can_see_unrestricted] at h3
      simp [user_can_view_page, h1, h2, h3]
  · intro env user site h1 h2 h3
    simp [user_can_view_all_pages, h1, h2, h3]

/-- Witness for C6 amended: a concrete wrapped call with an allowing body
still denies the anonymous principal. -/
theorem unauthenticated_denied_witness :
    permission_pre_checks "change_page" baseEnv anonUser (Except.ok true) =
      Except.ok false :=
  unauthenticated_denied.1 "change_page" baseEnv anonUser (Except.ok true)
    rfl

/-- C7: for every action in the coarse-capability table, an authenticated
non-superuser principal lacking any one of the action's required codes is
denied, with the same result for every body — so fine-grained or global
grants in the body are never consulted. -/
theorem pre_checks_missing_codes_deny (action : String) (codes : List String)
    (env : Env) (user : User) (func : Except String Bool)
    (hlook : _django_permissions_by_action.lookup action = some codes)
    (hauth : user.is_authenticated = true)
    (hsup : user.is_superuser = false)
    (hmiss : ∃ c ∈ codes, user.perms.contains c = false) :
    permission_pre_checks action env user func = Except.ok false := by
  have hperms : user.has_perms codes = false := by
    obtain ⟨c, hc, hcf⟩ := hmiss
    unfold User.has_perms
    rw [List.all_eq_false]
    exact ⟨c, hc, by simpa using hcf⟩
  simp [permission_pre_checks, hauth, hsup, hlook, hperms]

/-- An authenticated principal holding only the change codename. -/
def changeOnlyUser : User := ⟨false, false, true, [PAGE_CHANGE_CODENAME]⟩

/-- Witness for C7: the delete action requires the delete codename, which
`changeOnlyUser` lacks; an allowing body is ignored. -/
theorem pre_checks_missing_codes_deny_witness :
    permission_pre_checks "delete_page" baseEnv changeOnlyUser
      (Except.ok true) = Except.ok false :=
  pre_checks_missing_codes_deny "delete_page"
    [PAGE_CHANGE_CODENAME, PAGE_DELETE_CODENAME] baseEnv changeOnlyUser
    (Except.ok true) (by decide) rfl rfl
    ⟨PAGE_DELETE_CODENAME, by decide, by decide⟩

/-- A draft page (pk 20) with no active languages. -/
def noLangDraft : Page := ⟨20, true, 0, 1, false, []⟩

/-- A published counterpart of `noLangDraft` carrying language en. -/
def enPublished : Page := ⟨10, false, 20, 1, false, ["en"]⟩

/-- Environment with a global grant for every action, plugin deletion
denied, page store resolving to `noLangDraft`, placeholder store holding
an en placeholder. -/
def langMismatchEnv : Env :=
  ⟨true, "all", 1,
   fun _ _ => none,
   fun _ _ _ => true,
   fun _ _ _ => [],
   fun _ => noLangDraft,
   fun _ => [enPlaceholder],
   fun _ _ _ => false⟩

/-- Counterexample for C8: a published/draft counterpart pair on the same
site whose materializations report different active languages —
`user_can_delete_page` filters placeholders by the languages of the page
object it was handed, so the delete outcome differs between the published
page and its draft origin. -/
theorem draft_published_equivalence_cex :
    enPublished.publisher_is_draft = false ∧
      noLangDraft.publisher_is_draft = true ∧
      enPublished.publisher_public_id = noLangDraft.pk ∧
      enPublished.site = noLangDraft.site ∧
      langMismatchEnv.pages enPublished.publisher_public_id = noLangDraft ∧
      user_can_delete_page langMismatchEnv fullPermsUser enPublished =
        Except.ok false ∧
      user_can_delete_page langMismatchEnv fullPermsUser noLangDraft =
        Except.ok true :=
  ⟨rfl, rfl, rfl, rfl, rfl, rfl, rfl⟩

/-- C8 amended: for a published page and its draft origin that agree on
site and active languages, every permission outcome coincides; the
identity used for grant-set membership and the placeholders inspected by
the delete rules always resolve to the draft materialization. -/
theorem draft_published_equivalence (env : Env) (p d : Page)
    (hpub : p.publisher_is_draft = false)
    (hdft : d.publisher_is_draft = true)
    (hid : p.publisher_public_id = d.pk)
    (hsite : p.site = d.site)
    (hlang : p.languages = d.languages)
    (hpages : env.pages p.publisher_public_id = d) :
    ((if p.publisher_is_draft then p.pk else p.publisher_public_id) =
      d.pk) ∧
    (_get_draft_placeholders env p = _get_draft_placeholders env d) ∧
    (get_page_draft env p = get_page_draft env d) ∧
    (∀ (user : User) (action : String) (site : Option Nat)
        (check_global : Bool),
      has_generic_permission env p user action site check_global =
        has_generic_permission env d user action site check_global) ∧
    (∀ user : User,
      user_can_change_page env user p = user_can_change_page env user d ∧
      user_can_delete_page env user p = user_can_delete_page env user d ∧
      (∀ language : String,
        user_can_delete_page_translation env user p language =
          user_can_delete_page_translation env user d language) ∧
      user_can_publish_page env user p = user_can_publish_page env user d ∧
      user_can_change_page_advanced_settings env user p =
        user_can_change_page_advanced_settings env user d ∧
      user_can_change_page_permissions env user p =
        user_can_change_page_permissions env user d ∧
      user_can_move_page env user p = user_can_move_page env user d ∧
      (∀ site : Option Nat,
        user_can_add_subpage env user p site =
          user_can_add_subpage env user d site) ∧
      user_can_view_page env user p = user_can_view_page env user d) := by
  have hident : (if p.publisher_is_draft then p.pk
      else p.publisher_public_id) = d.pk := by
    rw [hpub, hid]
    simp
  have hph : _get_draft_placeholders env p =
      _get_draft_placeholders env d := by
    unfold _get_draft_placeholders
    rw [hpub, hdft, hid]
    simp
  have hgd : get_page_draft env p = get_page_draft env d := by
    unfold get_page_draft
    rw [hpub, hdft, hpages]
    simp
  have hgen : ∀ (user : User) (action : String) (site : Option Nat)
      (check_global : Bool),
      has_generic_permission env p user action site check_global =
        has_generic_permission env d user action site check_global := by
    intro user action site check_global
    cases site with
    | none => simp only [has_generic_permission, hident, hdft, hsite,
        ite_true, if_true]
    | some s => simp only [has_generic_permission, hident, hdft,
        ite_true, if_true]
  refine ⟨hident, hph, hgd, hgen, ?_⟩
  intro user
  have hdp : delete_page_placeholders env p =
      delete_page_placeholders env d := by
    unfold delete_page_placeholders
    rw [hph]
    simp only [hlang]
  refine ⟨?_, ?_, ?_, ?_, ?_, ?_, ?_, ?_, ?_⟩
  · simp only [user_can_change_page, hgen]
  · simp only [user_can_delete_page, hgen, hdp, hlang]
  · intro language
    simp only [user_can_delete_page_translation, hgen, hph]
  · simp only [user_can_publish_page, hgen]
  · simp only [user_can_change_page_advanced_settings, hgen]
  · simp only [user_can_change_page_permissions, hgen]
  · simp only [user_can_move_page, hgen]
  · intro site
    simp only [user_can_add_subpage, hgen]
  · simp only [user_can_view_page, hgd]

/-- Witness for C8 amended: `publishedPage` and `draftPage` agree on site
and languages in `baseEnv`, so the change outcome coincides. -/
theorem draft_published_equivalence_witness :
    user_can_change_page baseEnv fullPermsUser publishedPage =
      user_can_change_page baseEnv fullPermsUser draftPage :=
  ((draft_published_equivalence baseEnv publishedPage draftPage rfl rfl rfl
      rfl rfl rfl).2.2.2.2 fullPermsUser).1

/-- Counterexample for C9: for the action name "frobnicate_page", absent
from both tables, a pre-check wrapped call still returns a silent denial
for an unauthenticated principal (and a silent allow for a superuser),
because the table lookup happens only after the authentication and
superuser short-circuits. -/
theorem unknown_action_error_cex :
    List.lookup "frobnicate_page" _django_permissions_by_action = none ∧
      actions_map "frobnicate_page" = none ∧
      permission_pre_checks "frobnicate_page" baseEnv anonUser
        (Except.ok true) = Except.ok false ∧
      permission_pre_checks "frobnicate_page" baseEnv superUser
        (Except.ok true) = Except.ok true :=
  ⟨rfl, rfl, rfl, rfl⟩

/-- C9 amended: an unknown action name is a fatal error whenever the
dispatch table is consulted: `has_generic_permission` always raises, and
a pre-check wrapped call raises for every authenticated non-superuser
principal; the pre-check's authentication and superuser short-circuits
precede the lookup and return before the error can be raised. -/
theorem unknown_action_error :
    (∀ (env : Env) (page : Page) (user : User) (action : String)
        (site : Option Nat) (check_global : Bool),
      actions_map action = none →
      has_generic_permission env page user action site check_global =
        Except.error "KeyError") ∧
    (∀ (action : String) (env : Env) (user : User)
        (func : Except String Bool),
      List.lookup action _django_permissions_by_action = none →
      user.is_authenticated = true → user.is_superuser = false →
      permission_pre_checks action env user func =
        Except.error "KeyError") := by
  constructor
  · intro env page user action site check_global h
    cases site <;> simp only [has_generic_permission, h]
  · intro action env user func h hauth hsup
    simp [permission_pre_checks, h, hauth, hsup]

/-- Witness for C9 amended: the unknown action raises out of
`has_generic_permission` at a concrete input. -/
theorem unknown_action_error_witness :
    has_generic_permission baseEnv draftPage fullPermsUser
      "frobnicate_page" none true = Except.error "KeyError" :=
  unknown_action_error.1 baseEnv draftPage fullPermsUser "frobnicate_page"
    none true rfl

/-- Counterexample for C10: with the permission subsystem disabled and a
staff-only visibility policy, the authenticated non-staff principal
holding the coarse view codename is denied by `user_can_view_all_pages`;
the backwards-compatibility branch is only reached when the subsystem is
enabled. -/
theorem view_codename_allows_all_cex :
    fullPermsUser.has_perm PAGE_VIEW_CODENAME = true ∧
      fullPermsUser.is_authenticated = true ∧
      fullPermsUser.is_superuser = false ∧
      user_can_view_all_pages disabledStaffEnv fullPermsUser 1 = false := by
  decide

/-- C10 amended: with the permission subsystem enabled, every
authenticated non-superuser principal holding the coarse page-view
codename passes `user_can_view_all_pages` on every site even without any
global view grant, and consequently `user_can_view_page` allows that
principal on every page, restricted or not. -/
theorem view_codename_allows_all (env : Env) (user : User)
    (hperm : env.permission = true)
    (hauth : user.is_authenticated = true)
    (hsup : user.is_superuser = false)
    (hcode : user.has_perm PAGE_VIEW_CODENAME = true) :
    (∀ site : Nat, user_can_view_all_pages env user site = true) ∧
    (∀ page : Page, user_can_view_page env user page = Except.ok true) := by
  have hall : ∀ site : Nat, user_can_view_all_pages env user site = true := by
    intro site
    simp [user_can_view_all_pages, hperm, hauth, hsup, hcode]
  refine ⟨hall, ?_⟩
  intro page
  simp only [user_can_view_page, hsup, Bool.false_eq_true, if_false,
    ite_false]
  split
  · rfl
  · simp [hauth, hall]

/-- A view-restricted draft page on site 1. -/
def restrictedDraft : Page := ⟨21, true, 0, 1, true, ["en"]⟩

/-- Witness for C10 amended: the full-codes principal views the
restricted page without any global grant in `baseEnv`. -/
theorem view_codename_allows_all_witness :
    user_can_view_page baseEnv fullPermsUser restrictedDraft =
      Except.ok true :=
  (view_codename_allows_all baseEnv fullPermsUser rfl rfl rfl
    (by decide)).2 restrictedDraft

end PagePermissions
